import Mathlib

/-!
Shallow embedding of the Streamlit GFS-visualisation script `appy.py`
(repository Cuaca-Kalimantan-Barat).

The script's own logic is: a cached dataset loader keyed by
(run date, run cycle), a substring-dispatched parameter resolver with unit
conversions, a fixed-region lat/lon clip, and a renderer.  We embed:

* Python's substring test (`"pratesfc" in parameter`) as `strContains`;
* an xarray `DataArray` as coordinate lists (rationals) plus a matrix of
  values; positional indexing `ds[name][hour, :, :]` as `xs[hour]?` on the
  forecast-step axis (returning `none` models the `IndexError`);
* `.sel(lat=slice(a, b), lon=slice(c, d))` on the ascending native axes as
  the filter keeping exactly the coordinates lying in the closed intervals
  (xarray label slicing on an ascending index);
* elementwise arithmetic on fields as `List.map` / `List.zipWith` over ℝ
  (Python float arithmetic modelled by real arithmetic, `** 0.5` on the
  non-negative sum of squares as `Real.sqrt`);
* the `st.cache_data` decorator on `load_dataset` as a memo table of
  key/value entries together with a count of underlying fetches
  (Streamlit's cache_data memoises per argument tuple, with no
  `max_entries` bound set in the script);
* the button handler (lines 50-148) as `runPipeline`, whose `Outcome`
  records whether the request aborted at load failure, at the
  unrecognized-parameter warning, at positional indexing, or reached
  rendering with the clipped fields.
-/

namespace Cuaca

/-- Model of Python substring search, step 1: do the characters of the
second list occur at the head of the first list? -/
def startsWithChars : List Char → List Char → Bool
  | _, [] => true
  | [], _ :: _ => false
  | a :: as, b :: bs => a == b && startsWithChars as bs

/-- Model of Python substring search, step 2: does the second list occur
contiguously anywhere inside the first list? -/
def containsChars : List Char → List Char → Bool
  | [], needle => needle.isEmpty
  | h :: t, needle => startsWithChars (h :: t) needle || containsChars t needle

/-- Model of the Python expression `needle in hay` on strings, as used by
the if/elif parameter dispatch of `appy.py`. -/
def strContains (hay needle : String) : Bool :=
  containsChars hay.data needle.data

/-- A 2-D labelled array for one forecast step: latitude and longitude
coordinate labels (rationals: the GFS grid is 0.25-degree) and the matrix
of values, rows indexed like `lat`, columns like `lon`. -/
structure DataArray (α : Type) where
  lat : List ℚ
  lon : List ℚ
  vals : List (List α)

/-- Is coordinate `c` inside the closed interval `[lo, hi]`?  This is what
xarray `slice(lo, hi)` keeps on an ascending coordinate axis. -/
def inRange (lo hi c : ℚ) : Bool :=
  decide (lo ≤ c) && decide (c ≤ hi)

/-- Keep the entries of `xs` whose matching coordinate label lies in
`[lo, hi]`. -/
def filterByCoord {β : Type} (coords : List ℚ) (xs : List β) (lo hi : ℚ) : List β :=
  ((coords.zip xs).filter (fun q => inRange lo hi q.1)).map Prod.snd

/-- Model of `arr.sel(lat=slice(la, lb), lon=slice(oa, ob))` on ascending
native axes: keep the latitude rows and longitude columns whose labels lie
in the requested closed intervals. -/
def DataArray.sel {α : Type} (a : DataArray α) (la lb oa ob : ℚ) : DataArray α :=
  { lat := a.lat.filter (inRange la lb)
    lon := a.lon.filter (inRange oa ob)
    vals := (filterByCoord a.lat a.vals la lb).map
      (fun row => filterByCoord a.lon row oa ob) }

/-- Elementwise unary arithmetic on a field (numpy broadcasting of
`* 3600`, `- 273.15`, `/ 100` over the full 2-D grid). -/
def DataArray.map {α β : Type} (f : α → β) (a : DataArray α) : DataArray β :=
  { lat := a.lat, lon := a.lon, vals := a.vals.map (List.map f) }

/-- Elementwise binary arithmetic on two aligned fields (numpy
`(u**2 + v**2)**0.5` combines values position by position); the coordinate
labels are those of the first operand. -/
def DataArray.zipWith {α : Type} (f : α → α → α) (a b : DataArray α) : DataArray α :=
  { lat := a.lat, lon := a.lon, vals := List.zipWith (List.zipWith f) a.vals b.vals }

/-- The fields of the opened GFS dataset used by the script, each a list of
2-D arrays indexed positionally by forecast step. -/
structure Dataset where
  pratesfc : List (DataArray ℝ)
  tmp2m : List (DataArray ℝ)
  ugrd10m : List (DataArray ℝ)
  vgrd10m : List (DataArray ℝ)
  prmslmsl : List (DataArray ℝ)

/-- How parameter resolution can fail: the final `else` branch
(`st.warning("Parameter tidak dikenali."); st.stop()`), or a positional
index outside the forecast-step axis (xarray raises `IndexError`). -/
inductive ResolveError where
  | unrecognized
  | outOfRange

/-- Everything the dispatch chain (lines 58-88) produces: the displayable
field, label, colour map, colour range, the two mode flags, and for the
wind case the retained components `u`, `v`. -/
structure Resolved where
  var : DataArray ℝ
  label : String
  cmap : String
  vmin : ℚ
  vmax : ℚ
  is_contour : Bool
  is_vector : Bool
  uv : Option (DataArray ℝ × DataArray ℝ)

/-- The wind-speed conversion of line 74: `(u**2 + v**2)**0.5 * 1.94384`
(metres per second to knots). -/
noncomputable def windSpeed (x y : ℝ) : ℝ :=
  Real.sqrt (x ^ 2 + y ^ 2) * 1.94384

/-- The if/elif parameter dispatch of lines 58-88 of `appy.py`, including
the unit conversions and presentation metadata of each branch. -/
noncomputable def resolveParam (ds : Dataset) (parameter : String) (forecast_hour : Nat) :
    Except ResolveError Resolved :=
  if strContains parameter "pratesfc" then
    match ds.pratesfc[forecast_hour]? with
    | some a => .ok ⟨a.map (fun x => x * 3600),
        "Curah Hujan (mm/jam)", "Blues", 0, 50, false, false, none⟩
    | none => .error .outOfRange
  else if strContains parameter "tmp2m" then
    match ds.tmp2m[forecast_hour]? with
    | some a => .ok ⟨a.map (fun x => x - 273.15),
        "Suhu (°C)", "coolwarm", -10, 35, false, false, none⟩
    | none => .error .outOfRange
  else if strContains parameter "ugrd10m" then
    match ds.ugrd10m[forecast_hour]?, ds.vgrd10m[forecast_hour]? with
    | some u, some v => .ok ⟨u.zipWith windSpeed v,
        "Kecepatan Angin (knot)", "RdYlGn_r", 0, 50, false, true, some (u, v)⟩
    | _, _ => .error .outOfRange
  else if strContains parameter "prmsl" then
    match ds.prmslmsl[forecast_hour]? with
    | some a => .ok ⟨a.map (fun x => x / 100),
        "Tekanan Permukaan Laut (hPa)", "cool", 980, 1020, true, false, none⟩
    | none => .error .outOfRange
  else
    .error .unrecognized

/-- Fixed clip region of lines 90-92 (`lat_min, lat_max = -5, 4`). -/
def lat_min : ℚ := -5

/-- Fixed clip region, northern latitude bound. -/
def lat_max : ℚ := 4

/-- Fixed clip region, western longitude bound (`lon_min = 107`). -/
def lon_min : ℚ := 107

/-- Fixed clip region, eastern longitude bound (`lon_max = 115`). -/
def lon_max : ℚ := 115

/-- The clip of line 93 (and 95-96 for the wind components). -/
def clipRegion (a : DataArray ℝ) : DataArray ℝ :=
  a.sel lat_min lat_max lon_min lon_max

/-- What the renderer receives after clipping: the clipped primary field,
the clipped wind components when present, and the presentation flags. -/
structure RenderOutput where
  var : DataArray ℝ
  uv : Option (DataArray ℝ × DataArray ℝ)
  label : String
  is_contour : Bool
  is_vector : Bool

/-- Where one button press of the script ends up. -/
inductive Outcome where
  | loadFailed (msg : String)
  | unrecognized
  | outOfRange
  | rendered (out : RenderOutput)

/-- The body of the button handler: `try: load ... except: error, stop`,
then parameter dispatch (abort on the warning branch), then the regional
clip of the displayed field and, for the vector case, of both components
with the same bounds, then rendering. -/
noncomputable def runPipeline (load : Except String Dataset) (parameter : String)
    (forecast_hour : Nat) : Outcome :=
  match load with
  | .error e => .loadFailed ("Gagal memuat data: " ++ e)
  | .ok ds =>
    match resolveParam ds parameter forecast_hour with
    | .error .unrecognized => .unrecognized
    | .error .outOfRange => .outOfRange
    | .ok r =>
        .rendered ⟨clipRegion r.var,
          r.uv.map (fun q => (clipRegion q.1, clipRegion q.2)),
          r.label, r.is_contour, r.is_vector⟩

/-- State of the `st.cache_data` memo table wrapped around `load_dataset`:
the stored (run_date, run_hour) → dataset entries, plus a count of how many
underlying network fetches have happened. -/
structure CacheState (D : Type) where
  entries : List ((String × String) × D)
  fetchCount : Nat

/-- Lookup of a key in the memo table. -/
def lookupEntry {D : Type} : List ((String × String) × D) → String × String → Option D
  | [], _ => none
  | (k, v) :: rest, key => if k = key then some v else lookupEntry rest key

/-- The URL built on line 21 of `appy.py`. -/
def gfs_url (run_date run_hour : String) : String :=
  "https://nomads.ncep.noaa.gov/dods/gfs_0p25_1hr/gfs" ++ run_date ++
    "/gfs_0p25_1hr_" ++ run_hour ++ "z"

/-- `load_dataset` under its `st.cache_data` decorator: on a key already in
the memo table return the stored dataset with no fetch; on a new key call
`xr.open_dataset` (abstracted as `open_ds`) on the built URL, store the
result under the key, and count one fetch.  Streamlit's cache_data sets no
entry bound here, so insertion never evicts. -/
def load_dataset {D : Type} (open_ds : String → D) (s : CacheState D)
    (run_date run_hour : String) : D × CacheState D :=
  match lookupEntry s.entries (run_date, run_hour) with
  | some ds => (ds, s)
  | none =>
      let ds := open_ds (gfs_url run_date run_hour)
      (ds, ⟨((run_date, run_hour), ds) :: s.entries, s.fetchCount + 1⟩)

/-- The forecast-hour choices of the slider on line 30:
`st.sidebar.slider("Jam ke depan", 0, 240, 0, step=1)`. -/
def forecastHourValues : List ℤ :=
  (List.range 241).map (fun n => (n : ℤ))

/-- The four parameter selections offered by the selectbox on lines 31-36. -/
def parameterOptions : List String :=
  ["Curah Hujan per jam (pratesfc)",
   "Suhu Permukaan (tmp2m)",
   "Angin Permukaan (ugrd10m & vgrd10m)",
   "Tekanan Permukaan Laut (prmslmsl)"]

/-- How many of the four dispatch keys a selection string contains. -/
def matchCount (p : String) : Nat :=
  (if strContains p "pratesfc" then 1 else 0) +
  (if strContains p "tmp2m" then 1 else 0) +
  (if strContains p "ugrd10m" then 1 else 0) +
  (if strContains p "prmsl" then 1 else 0)

/-- Concrete one-point (wind: two-point) dataset used to instantiate the
theorems: precipitation rate 1 per second, temperature 300 K, wind
components (0, 0) and (-3, 4), pressure 101000 Pa. -/
noncomputable def dsW : Dataset :=
  ⟨[⟨[0], [110], [[1]]⟩],
   [⟨[0], [110], [[300]]⟩],
   [⟨[0], [110, 111], [[0, -3]]⟩],
   [⟨[0], [110, 111], [[0, 4]]⟩],
   [⟨[0], [110], [[101000]]⟩]⟩

/-- Claim C1: a selection containing "pratesfc" resolves to the
precipitation-rate field times 3600, one containing "tmp2m" (and not an
earlier key) to the 2-metre temperature minus 273.15, and one containing
"prmsl" (and no earlier key) to the mean-sea-level pressure divided by 100,
each applied elementwise over the full 2-D grid at the chosen forecast
step, together with the documented label and presentation metadata. -/
theorem C1_resolver_unit_conversions (ds : Dataset) (p : String) (step : Nat) :
    (strContains p "pratesfc" = true →
      ∀ a, ds.pratesfc[step]? = some a →
        resolveParam ds p step = .ok ⟨⟨a.lat, a.lon, a.vals.map (List.map (fun x => x * 3600))⟩,
          "Curah Hujan (mm/jam)", "Blues", 0, 50, false, false, none⟩) ∧
    (strContains p "pratesfc" = false → strContains p "tmp2m" = true →
      ∀ a, ds.tmp2m[step]? = some a →
        resolveParam ds p step = .ok ⟨⟨a.lat, a.lon, a.vals.map (List.map (fun x => x - 273.15))⟩,
          "Suhu (°C)", "coolwarm", -10, 35, false, false, none⟩) ∧
    (strContains p "pratesfc" = false → strContains p "tmp2m" = false →
      strContains p "ugrd10m" = false → strContains p "prmsl" = true →
      ∀ a, ds.prmslmsl[step]? = some a →
        resolveParam ds p step = .ok ⟨⟨a.lat, a.lon, a.vals.map (List.map (fun x => x / 100))⟩,
          "Tekanan Permukaan Laut (hPa)", "cool", 980, 1020, true, false, none⟩) := by
  refine ⟨?_, ?_, ?_⟩
  · intro h a ha
    simp [resolveParam, h, ha, DataArray.map]
  · intro h1 h2 a ha
    simp [resolveParam, h1, h2, ha, DataArray.map]
  · intro h1 h2 h3 h4 a ha
    simp [resolveParam, h1, h2, h3, h4, ha, DataArray.map]

/-- Claim C1, instantiated: on the concrete dataset `dsW` the three scalar
selections produce 1 → 3600 (mm/hr), 300 K → 26.85 °C and
101000 Pa → 1010 hPa. -/
theorem C1_resolver_unit_conversions_witness :
    resolveParam dsW "Curah Hujan per jam (pratesfc)" 0 =
      .ok ⟨⟨[0], [110], [[3600]]⟩, "Curah Hujan (mm/jam)", "Blues", 0, 50, false, false, none⟩ ∧
    resolveParam dsW "Suhu Permukaan (tmp2m)" 0 =
      .ok ⟨⟨[0], [110], [[26.85]]⟩, "Suhu (°C)", "coolwarm", -10, 35, false, false, none⟩ ∧
    resolveParam dsW "Tekanan Permukaan Laut (prmslmsl)" 0 =
      .ok ⟨⟨[0], [110], [[1010]]⟩, "Tekanan Permukaan Laut (hPa)", "cool", 980, 1020, true, false, none⟩ := by
  refine ⟨?_, ?_, ?_⟩
  · rw [(C1_resolver_unit_conversions dsW _ 0).1 (by decide) ⟨[0], [110], [[1]]⟩ rfl]
    norm_num
  · rw [(C1_resolver_unit_conversions dsW _ 0).2.1 (by decide) (by decide)
      ⟨[0], [110], [[300]]⟩ rfl]
    norm_num
  · rw [(C1_resolver_unit_conversions dsW _ 0).2.2 (by decide) (by decide) (by decide) (by decide)
      ⟨[0], [110], [[101000]]⟩ rfl]
    norm_num

/-- Every element of `List.zipWith f l1 l2` is `f a b` for some elements
`a` of `l1` and `b` of `l2`. -/
theorem exists_of_mem_zipWith {α β γ : Type} {f : α → β → γ} :
    ∀ {l1 : List α} {l2 : List β} {c : γ}, c ∈ List.zipWith f l1 l2 →
      ∃ a b, a ∈ l1 ∧ b ∈ l2 ∧ c = f a b := by
  intro l1
  induction l1 with
  | nil => intro l2 c h; simp at h
  | cons a as ih =>
    intro l2 c h
    cases l2 with
    | nil => simp at h
    | cons b bs =>
      rw [List.zipWith_cons_cons, List.mem_cons] at h
      rcases h with h | h
      · exact ⟨a, b, List.mem_cons_self a as, List.mem_cons_self b bs, h⟩
      · obtain ⟨x, y, hx, hy, hc⟩ := ih h
        exact ⟨x, y, List.mem_cons_of_mem _ hx, List.mem_cons_of_mem _ hy, hc⟩

/-- Claim C2: for every pair of wind-component fields, the resolved
wind-speed field is elementwise `sqrt (u² + v²) * 1.94384`, the vector
components are retained, and every value of the resulting field is
non-negative. -/
theorem C2_wind_speed_resolution (ds : Dataset) (p : String) (step : Nat)
    (h1 : strContains p "pratesfc" = false) (h2 : strContains p "tmp2m" = false)
    (h3 : strContains p "ugrd10m" = true)
    (u v : DataArray ℝ) (hu : ds.ugrd10m[step]? = some u) (hv : ds.vgrd10m[step]? = some v) :
    ∃ r, resolveParam ds p step = .ok r ∧
      r.var.lat = u.lat ∧ r.var.lon = u.lon ∧
      r.var.vals = List.zipWith
        (List.zipWith (fun x y => Real.sqrt (x ^ 2 + y ^ 2) * 1.94384)) u.vals v.vals ∧
      r.is_vector = true ∧ r.uv = some (u, v) ∧
      ∀ row ∈ r.var.vals, ∀ x ∈ row, 0 ≤ x := by
  refine ⟨⟨u.zipWith windSpeed v, "Kecepatan Angin (knot)", "RdYlGn_r",
    0, 50, false, true, some (u, v)⟩, ?_, rfl, rfl, rfl, rfl, rfl, ?_⟩
  · simp [resolveParam, h1, h2, h3, hu, hv]
  · intro row hrow x hx
    obtain ⟨r1, r2, -, -, hrx⟩ := exists_of_mem_zipWith hrow
    rw [hrx] at hx
    obtain ⟨a, b, -, -, hab⟩ := exists_of_mem_zipWith hx
    rw [hab]
    exact mul_nonneg (Real.sqrt_nonneg _) (by norm_num)

/-- Claim C2, instantiated: on `dsW`, with components (0, 0) and (-3, 4),
the resolved speeds are 0 and 5 × 1.94384 knots, all non-negative. -/
theorem C2_wind_speed_resolution_witness :
    ∃ r, resolveParam dsW "Angin Permukaan (ugrd10m & vgrd10m)" 0 = .ok r ∧
      r.var.lat = [0] ∧ r.var.lon = [110, 111] ∧
      r.var.vals = [[0, 5 * 1.94384]] ∧ r.is_vector = true ∧
      ∀ row ∈ r.var.vals, ∀ x ∈ row, 0 ≤ x := by
  obtain ⟨r, hr, hlat, hlon, hvals, hvec, huv, hnn⟩ :=
    C2_wind_speed_resolution dsW "Angin Permukaan (ugrd10m & vgrd10m)" 0
      (by decide) (by decide) (by decide)
      ⟨[0], [110, 111], [[0, -3]]⟩ ⟨[0], [110, 111], [[0, 4]]⟩ rfl rfl
  refine ⟨r, hr, hlat, hlon, ?_, hvec, hnn⟩
  rw [hvals]
  have h00 : Real.sqrt ((0 : ℝ) ^ 2 + 0 ^ 2) * 1.94384 = 0 := by
    rw [show ((0 : ℝ) ^ 2 + 0 ^ 2) = 0 by norm_num, Real.sqrt_zero, zero_mul]
  have h34 : Real.sqrt ((-3 : ℝ) ^ 2 + 4 ^ 2) * 1.94384 = 5 * 1.94384 := by
    rw [show ((-3 : ℝ) ^ 2 + 4 ^ 2) = 5 ^ 2 by norm_num,
      Real.sqrt_sq (by norm_num : (0 : ℝ) ≤ 5)]
  simp only [List.zipWith_cons_cons, List.zipWith_nil_left, List.zipWith_nil_right]
  rw [h00, h34]

/-- Claim C5: a selection containing none of the four dispatch keys makes
the pipeline stop at the unrecognized-parameter warning: the outcome is
the same for every dataset (no field beyond the initial load is read) and
is never a rendered result (no clipping, no rendering). -/
theorem C5_unrecognized_parameter_aborts (ds ds2 : Dataset) (p : String) (step : Nat)
    (h1 : strContains p "pratesfc" = false) (h2 : strContains p "tmp2m" = false)
    (h3 : strContains p "ugrd10m" = false) (h4 : strContains p "prmsl" = false) :
    runPipeline (Except.ok ds) p step = Outcome.unrecognized ∧
    runPipeline (Except.ok ds) p step = runPipeline (Except.ok ds2) p step ∧
    ∀ out, runPipeline (Except.ok ds) p step ≠ Outcome.rendered out := by
  have key : ∀ d : Dataset, runPipeline (Except.ok d) p step = Outcome.unrecognized := by
    intro d
    simp [runPipeline, resolveParam, h1, h2, h3, h4]
  refine ⟨key ds, (key ds).trans (key ds2).symm, ?_⟩
  intro out h
  rw [key ds] at h
  exact Outcome.noConfusion h

/-- Claim C5, instantiated on the selection "foobar". -/
theorem C5_unrecognized_parameter_aborts_witness :
    runPipeline (Except.ok dsW) "foobar" 0 = Outcome.unrecognized ∧
    runPipeline (Except.ok dsW) "foobar" 0 = runPipeline (Except.ok dsW) "foobar" 0 ∧
    ∀ out, runPipeline (Except.ok dsW) "foobar" 0 ≠ Outcome.rendered out :=
  C5_unrecognized_parameter_aborts dsW dsW "foobar" 0
    (by decide) (by decide) (by decide) (by decide)

/-- Claim C6: when the dataset load raises any failure, the handler
reports the single load-failed condition with the failure text and the
pipeline never reaches a rendered result (neither resolve, clip nor render
runs: the outcome does not depend on the parameter or the step). -/
theorem C6_load_failure_aborts (e p p2 : String) (step step2 : Nat) :
    runPipeline (Except.error e) p step = Outcome.loadFailed ("Gagal memuat data: " ++ e) ∧
    runPipeline (Except.error e) p step = runPipeline (Except.error e) p2 step2 ∧
    ∀ out, runPipeline (Except.error e) p step ≠ Outcome.rendered out := by
  refine ⟨rfl, rfl, ?_⟩
  intro out h
  exact Outcome.noConfusion h

/-- Cache state after two loads with the distinct keys (20250101, 00) and
(20250102, 06), starting from the empty cache, with the fetched dataset
abstracted as the URL string it was fetched from. -/
def cacheTwoKeys : CacheState String :=
  (load_dataset (fun u => u)
    (load_dataset (fun u => u) ⟨[], 0⟩ "20250101" "00").2 "20250102" "06").2

/-- Claim C3 as stated is false: after a second load with a different
(run_date, run_cycle), the memo table still holds the first entry next to
the second one — `st.cache_data` with no entry bound set never evicts, so
the cache does retain datasets for two distinct keys at once. -/
theorem C3_single_entry_counterexample :
    cacheTwoKeys.entries.length = 2 ∧
    lookupEntry cacheTwoKeys.entries ("20250101", "00") = some (gfs_url "20250101" "00") ∧
    lookupEntry cacheTwoKeys.entries ("20250102", "06") = some (gfs_url "20250102" "06") ∧
    ¬ cacheTwoKeys.entries.length ≤ 1 := by
  refine ⟨rfl, rfl, rfl, by decide⟩

/-- Claim C3 amended: the loader cache is a memo table keyed by
(run_date, run_cycle) with no entry bound; a call with a new key adds an
entry without evicting the previous one, so after two loads with distinct
fresh keys both datasets are retained and the table has grown by two. -/
theorem C3_cache_retains_all_keys {D : Type} (open_ds : String → D) (s0 : CacheState D)
    (d1 c1 d2 c2 : String) (hne : (d1, c1) ≠ (d2, c2))
    (h1 : lookupEntry s0.entries (d1, c1) = none)
    (h2 : lookupEntry s0.entries (d2, c2) = none) :
    lookupEntry ((load_dataset open_ds
        (load_dataset open_ds s0 d1 c1).2 d2 c2).2).entries (d1, c1) =
      some (open_ds (gfs_url d1 c1)) ∧
    lookupEntry ((load_dataset open_ds
        (load_dataset open_ds s0 d1 c1).2 d2 c2).2).entries (d2, c2) =
      some (open_ds (gfs_url d2 c2)) ∧
    ((load_dataset open_ds
        (load_dataset open_ds s0 d1 c1).2 d2 c2).2).entries.length =
      s0.entries.length + 2 := by
  have e1 : (load_dataset open_ds s0 d1 c1).2 =
      ⟨((d1, c1), open_ds (gfs_url d1 c1)) :: s0.entries, s0.fetchCount + 1⟩ := by
    simp [load_dataset, h1]
  rw [e1]
  have h2b : lookupEntry (((d1, c1), open_ds (gfs_url d1 c1)) :: s0.entries) (d2, c2) = none := by
    simp [lookupEntry, hne, h2]
  have e2 : (load_dataset open_ds
      (⟨((d1, c1), open_ds (gfs_url d1 c1)) :: s0.entries, s0.fetchCount + 1⟩ : CacheState D)
      d2 c2).2 =
      ⟨((d2, c2), open_ds (gfs_url d2 c2)) ::
        ((d1, c1), open_ds (gfs_url d1 c1)) :: s0.entries, s0.fetchCount + 1 + 1⟩ := by
    simp [load_dataset, h2b]
  rw [e2]
  refine ⟨?_, ?_, ?_⟩
  · simp [lookupEntry, Ne.symm hne]
  · simp [lookupEntry]
  · simp [Nat.add_assoc]

/-- Claim C3 amended, instantiated: the concrete two-key run retains both
entries and ends with two of them. -/
theorem C3_cache_retains_all_keys_witness :
    lookupEntry cacheTwoKeys.entries ("20250101", "00") = some (gfs_url "20250101" "00") ∧
    lookupEntry cacheTwoKeys.entries ("20250102", "06") = some (gfs_url "20250102" "06") ∧
    cacheTwoKeys.entries.length = 2 := by
  have h := C3_cache_retains_all_keys (fun u => u) ⟨[], 0⟩ "20250101" "00" "20250102" "06"
    (by decide) rfl rfl
  simpa [cacheTwoKeys] using h

/-- Claim C4: loading a (run_date, run_cycle) pair not yet cached performs
exactly one underlying fetch, and a second call with the identical
arguments returns the previously loaded dataset and leaves the cache state
(fetch count included) unchanged: a cache hit with no new network
round-trip. -/
theorem C4_cache_hit_on_identical_args {D : Type} (open_ds : String → D) (s0 : CacheState D)
    (d c : String) (hmiss : lookupEntry s0.entries (d, c) = none) :
    (load_dataset open_ds s0 d c).2.fetchCount = s0.fetchCount + 1 ∧
    (load_dataset open_ds (load_dataset open_ds s0 d c).2 d c).1 =
      (load_dataset open_ds s0 d c).1 ∧
    (load_dataset open_ds (load_dataset open_ds s0 d c).2 d c).2 =
      (load_dataset open_ds s0 d c).2 := by
  have e1 : load_dataset open_ds s0 d c =
      (open_ds (gfs_url d c),
       ⟨((d, c), open_ds (gfs_url d c)) :: s0.entries, s0.fetchCount + 1⟩) := by
    simp [load_dataset, hmiss]
  have hhit : lookupEntry (((d, c), open_ds (gfs_url d c)) :: s0.entries) (d, c) =
      some (open_ds (gfs_url d c)) := by
    simp [lookupEntry]
  rw [e1]
  exact ⟨rfl, by simp [load_dataset, hhit], by simp [load_dataset, hhit]⟩

/-- Claim C4, instantiated: loading (20250101, 00) twice from the empty
cache fetches once and hits the cache on the repeat. -/
theorem C4_cache_hit_on_identical_args_witness :
    (load_dataset (fun u => u) (⟨[], 0⟩ : CacheState String) "20250101" "00").2.fetchCount =
      0 + 1 ∧
    (load_dataset (fun u => u)
        (load_dataset (fun u => u) (⟨[], 0⟩ : CacheState String) "20250101" "00").2
        "20250101" "00").1 =
      (load_dataset (fun u => u) (⟨[], 0⟩ : CacheState String) "20250101" "00").1 ∧
    (load_dataset (fun u => u)
        (load_dataset (fun u => u) (⟨[], 0⟩ : CacheState String) "20250101" "00").2
        "20250101" "00").2 =
      (load_dataset (fun u => u) (⟨[], 0⟩ : CacheState String) "20250101" "00").2 :=
  C4_cache_hit_on_identical_args (fun u => u) ⟨[], 0⟩ "20250101" "00" rfl

/-- Claim C7: with slice bounds given in the native ascending axis order,
every latitude label of the clipped field lies in [la, lb], every
longitude label lies in [oa, ob], and whenever the region contains at
least one grid point of each axis the clipped field keeps a non-empty
coordinate axis in both directions. -/
theorem C7_regional_clip_bounds {α : Type} (a : DataArray α) (la lb oa ob : ℚ)
    (hlo : la ≤ lb) (hoo : oa ≤ ob) :
    (∀ c ∈ (a.sel la lb oa ob).lat, la ≤ c ∧ c ≤ lb) ∧
    (∀ c ∈ (a.sel la lb oa ob).lon, oa ≤ c ∧ c ≤ ob) ∧
    ((∃ c ∈ a.lat, la ≤ c ∧ c ≤ lb) → (∃ c ∈ a.lon, oa ≤ c ∧ c ≤ ob) →
      (a.sel la lb oa ob).lat ≠ [] ∧ (a.sel la lb oa ob).lon ≠ []) := by
  refine ⟨?_, ?_, ?_⟩
  · intro c hc
    simp only [DataArray.sel] at hc
    rw [List.mem_filter] at hc
    have h2 := hc.2
    simpa [inRange] using h2
  · intro c hc
    simp only [DataArray.sel] at hc
    rw [List.mem_filter] at hc
    have h2 := hc.2
    simpa [inRange] using h2
  · rintro ⟨c, hc, hc1, hc2⟩ ⟨e, he, he1, he2⟩
    constructor
    · have hmem : c ∈ (a.sel la lb oa ob).lat := by
        simp only [DataArray.sel]
        exact List.mem_filter.mpr ⟨hc, by simp [inRange, hc1, hc2]⟩
      exact List.ne_nil_of_mem hmem
    · have hmem : e ∈ (a.sel la lb oa ob).lon := by
        simp only [DataArray.sel]
        exact List.mem_filter.mpr ⟨he, by simp [inRange, he1, he2]⟩
      exact List.ne_nil_of_mem hmem

/-- A coordinate grid overlapping the deployment region on both axes (the
values carried by the cells play no role in the clip-bound property). -/
def gridW : DataArray Unit :=
  ⟨[-10, -5, 0, 4, 10], [100, 107, 110, 115, 120], []⟩

/-- Claim C7, instantiated on the deployment region (lat -5..4,
lon 107..115) and a grid overlapping it: bounds hold and the clip is
non-empty. -/
theorem C7_regional_clip_bounds_witness :
    (∀ c ∈ (gridW.sel lat_min lat_max lon_min lon_max).lat, lat_min ≤ c ∧ c ≤ lat_max) ∧
    (∀ c ∈ (gridW.sel lat_min lat_max lon_min lon_max).lon, lon_min ≤ c ∧ c ≤ lon_max) ∧
    ((gridW.sel lat_min lat_max lon_min lon_max).lat ≠ [] ∧
     (gridW.sel lat_min lat_max lon_min lon_max).lon ≠ []) := by
  have h := C7_regional_clip_bounds gridW lat_min lat_max lon_min lon_max
    (by norm_num [lat_min, lat_max]) (by norm_num [lon_min, lon_max])
  exact ⟨h.1, h.2.1,
    h.2.2 ⟨0, by decide, by decide⟩ ⟨110, by decide, by decide⟩⟩

/-- Claim C8: in the wind (vector) case both components are clipped with
exactly the bounds used for the displayed speed field, so the clipped u
grid, v grid and speed grid carry identical latitude and longitude axes. -/
theorem C8_vector_components_aligned (ds : Dataset) (p : String) (step : Nat)
    (h1 : strContains p "pratesfc" = false) (h2 : strContains p "tmp2m" = false)
    (h3 : strContains p "ugrd10m" = true)
    (u v : DataArray ℝ) (hu : ds.ugrd10m[step]? = some u) (hv : ds.vgrd10m[step]? = some v)
    (hlat : v.lat = u.lat) (hlon : v.lon = u.lon) :
    ∃ out, runPipeline (Except.ok ds) p step = Outcome.rendered out ∧
      out.is_vector = true ∧
      out.uv = some (clipRegion u, clipRegion v) ∧
      (clipRegion u).lat = out.var.lat ∧ (clipRegion v).lat = out.var.lat ∧
      (clipRegion u).lon = out.var.lon ∧ (clipRegion v).lon = out.var.lon := by
  refine ⟨⟨clipRegion (u.zipWith windSpeed v), some (clipRegion u, clipRegion v),
    "Kecepatan Angin (knot)", false, true⟩, ?_, rfl, rfl, rfl, ?_, rfl, ?_⟩
  · simp [runPipeline, resolveParam, h1, h2, h3, hu, hv]
  · simp [clipRegion, DataArray.sel, DataArray.zipWith, hlat]
  · simp [clipRegion, DataArray.sel, DataArray.zipWith, hlon]

/-- Claim C8, instantiated on the concrete wind fields of `dsW`. -/
theorem C8_vector_components_aligned_witness :
    ∃ out, runPipeline (Except.ok dsW) "Angin Permukaan (ugrd10m & vgrd10m)" 0 =
      Outcome.rendered out ∧
      out.is_vector = true ∧
      out.uv = some (clipRegion ⟨[0], [110, 111], [[0, -3]]⟩,
        clipRegion ⟨[0], [110, 111], [[0, 4]]⟩) ∧
      (clipRegion ⟨[0], [110, 111], [[0, -3]]⟩).lat = out.var.lat ∧
      (clipRegion ⟨[0], [110, 111], [[0, 4]]⟩).lat = out.var.lat ∧
      (clipRegion ⟨[0], [110, 111], [[0, -3]]⟩).lon = out.var.lon ∧
      (clipRegion ⟨[0], [110, 111], [[0, 4]]⟩).lon = out.var.lon :=
  C8_vector_components_aligned dsW "Angin Permukaan (ugrd10m & vgrd10m)" 0
    (by decide) (by decide) (by decide)
    ⟨[0], [110, 111], [[0, -3]]⟩ ⟨[0], [110, 111], [[0, 4]]⟩ rfl rfl rfl rfl

set_option maxRecDepth 8000 in
/-- Claim C9: the slider only offers forecast steps between 0 and 240; the
forecast step indexes each field positionally, so a step outside the
forecast-step axis makes resolution fail with the out-of-range condition,
and in range the result depends only on the entry at that position. -/
theorem C9_step_positional_and_bounded (ds : Dataset) (p : String) (step : Nat) :
    (∀ n ∈ forecastHourValues, 0 ≤ n ∧ n ≤ 240) ∧
    (strContains p "pratesfc" = true → ds.pratesfc[step]? = none →
      resolveParam ds p step = .error .outOfRange) ∧
    (strContains p "pratesfc" = false → strContains p "tmp2m" = true →
      ds.tmp2m[step]? = none → resolveParam ds p step = .error .outOfRange) ∧
    (strContains p "pratesfc" = false → strContains p "tmp2m" = false →
      strContains p "ugrd10m" = true → ds.ugrd10m[step]? = none →
      resolveParam ds p step = .error .outOfRange) ∧
    (strContains p "pratesfc" = false → strContains p "tmp2m" = false →
      strContains p "ugrd10m" = false → strContains p "prmsl" = true →
      ds.prmslmsl[step]? = none → resolveParam ds p step = .error .outOfRange) ∧
    (strContains p "pratesfc" = true → ∀ ds2 : Dataset,
      ds.pratesfc[step]? = ds2.pratesfc[step]? →
      resolveParam ds p step = resolveParam ds2 p step) := by
  refine ⟨?_, ?_, ?_, ?_, ?_, ?_⟩
  · intro n hn
    revert n
    decide
  · intro h ha
    simp [resolveParam, h, ha]
  · intro h1 h2 ha
    simp [resolveParam, h1, h2, ha]
  · intro h1 h2 h3 ha
    cases hv : ds.vgrd10m[step]? <;> simp [resolveParam, h1, h2, h3, ha, hv]
  · intro h1 h2 h3 h4 ha
    simp [resolveParam, h1, h2, h3, h4, ha]
  · intro h ds2 heq
    simp only [resolveParam, h, if_true]
    rw [heq]

/-- The dataset on which every field has an empty forecast-step axis. -/
def dsEmpty : Dataset := ⟨[], [], [], [], []⟩

/-- Claim C9, instantiated: all 241 slider values lie in [0, 240], and
step 241 on an empty forecast-step axis resolves to the out-of-range
error. -/
theorem C9_step_positional_and_bounded_witness :
    (∀ n ∈ forecastHourValues, 0 ≤ n ∧ n ≤ 240) ∧
    resolveParam dsEmpty "Curah Hujan per jam (pratesfc)" 241 = .error .outOfRange := by
  have h := C9_step_positional_and_bounded dsEmpty "Curah Hujan per jam (pratesfc)" 241
  exact ⟨h.1, h.2.1 (by decide) rfl⟩

/-- Claim C10: each of the four selections actually offered by the
interface contains exactly one of the four dispatch keys, and on such a
selection the resolver never takes the unrecognized-parameter branch. -/
theorem C10_offered_selections_recognized (p : String) (hp : p ∈ parameterOptions) :
    matchCount p = 1 ∧
    ∀ (ds : Dataset) (step : Nat), resolveParam ds p step ≠ .error .unrecognized := by
  simp only [parameterOptions, List.mem_cons, List.not_mem_nil, or_false] at hp
  rcases hp with rfl | rfl | rfl | rfl
  · refine ⟨by decide, ?_⟩
    intro ds step hcontra
    have hc : strContains "Curah Hujan per jam (pratesfc)" "pratesfc" = true := by decide
    cases h : ds.pratesfc[step]? <;> simp [resolveParam, hc, h] at hcontra
  · refine ⟨by decide, ?_⟩
    intro ds step hcontra
    have hc1 : strContains "Suhu Permukaan (tmp2m)" "pratesfc" = false := by decide
    have hc2 : strContains "Suhu Permukaan (tmp2m)" "tmp2m" = true := by decide
    cases h : ds.tmp2m[step]? <;> simp [resolveParam, hc1, hc2, h] at hcontra
  · refine ⟨by decide, ?_⟩
    intro ds step hcontra
    have hc1 : strContains "Angin Permukaan (ugrd10m & vgrd10m)" "pratesfc" = false := by decide
    have hc2 : strContains "Angin Permukaan (ugrd10m & vgrd10m)" "tmp2m" = false := by decide
    have hc3 : strContains "Angin Permukaan (ugrd10m & vgrd10m)" "ugrd10m" = true := by decide
    cases h : ds.ugrd10m[step]? <;> cases h2 : ds.vgrd10m[step]? <;>
      simp [resolveParam, hc1, hc2, hc3, h, h2] at hcontra
  · refine ⟨by decide, ?_⟩
    intro ds step hcontra
    have hc1 : strContains "Tekanan Permukaan Laut (prmslmsl)" "pratesfc" = false := by decide
    have hc2 : strContains "Tekanan Permukaan Laut (prmslmsl)" "tmp2m" = false := by decide
    have hc3 : strContains "Tekanan Permukaan Laut (prmslmsl)" "ugrd10m" = false := by decide
    have hc4 : strContains "Tekanan Permukaan Laut (prmslmsl)" "prmsl" = true := by decide
    cases h : ds.prmslmsl[step]? <;> simp [resolveParam, hc1, hc2, hc3, hc4, h] at hcontra

/-- Claim C10, instantiated on the first offered selection. -/
theorem C10_offered_selections_recognized_witness :
    matchCount "Curah Hujan per jam (pratesfc)" = 1 ∧
    ∀ (ds : Dataset) (step : Nat),
      resolveParam ds "Curah Hujan per jam (pratesfc)" step ≠ .error .unrecognized :=
  C10_offered_selections_recognized "Curah Hujan per jam (pratesfc)" (by simp [parameterOptions])

end Cuaca
